import Mathlib

/-
Verification of the record-reconciliation layer of the Liabrary_Backend
repository (src/app.js, the exported serverless entry point).

The JavaScript handlers are shallowly embedded as pure Lean functions:
request bodies are association lists of string keys to JSON-style values,
the spreadsheet store is a list of rows plus an initialization flag, and
each HTTP handler becomes a function from the store state and the request
data to an outcome record (status, message, error detail, store effects).
JS numbers are modelled as integers (every numeric value appearing in the
program's data paths is integral); NaN is a distinguished coercion result.
-/

namespace LibraryBackend

/-- A JSON-ish JavaScript value as seen by the handlers: null, undefined,
booleans, (integer) numbers, NaN, and strings. -/
inductive JSValue where
  | null : JSValue
  | undef : JSValue
  | bool : Bool → JSValue
  | num : Int → JSValue
  | nan : JSValue
  | str : String → JSValue
deriving DecidableEq, Repr

/-- Result of the JS Number(...) coercion: NaN or a finite (integer) value. -/
inductive JNum where
  | nan : JNum
  | fin : Int → JNum
deriving DecidableEq, Repr

/-- JS truthiness test, negated: null, undefined, NaN, false, 0 and the
empty string are falsy; everything else is truthy. -/
def falsy : JSValue → Bool
  | JSValue.null => true
  | JSValue.undef => true
  | JSValue.bool b => !b
  | JSValue.num n => n == 0
  | JSValue.nan => true
  | JSValue.str s => s == ""

/-- ASCII whitespace recognized when coercing a string to a number. -/
def isSpaceChar (c : Char) : Bool :=
  c == ' ' || c == '\t' || c == '\n' || c == '\r'

/-- Strip leading and trailing whitespace from a character list
(the trimming step of the JS StringToNumber conversion). -/
def trimChars (l : List Char) : List Char :=
  ((l.dropWhile isSpaceChar).reverse.dropWhile isSpaceChar).reverse

/-- Value of a digit list read in base 10. -/
def digitsVal (l : List Char) : Nat :=
  l.foldl (fun a c => a * 10 + (c.toNat - 48)) 0

/-- Parse an optionally signed run of decimal digits; anything else is
rejected (the JS Number(...) string grammar, restricted to integers). -/
def parseDecInt : List Char → Option Int
  | [] => none
  | '+' :: rest =>
      if rest.length > 0 && rest.all Char.isDigit then
        some (Int.ofNat (digitsVal rest))
      else none
  | '-' :: rest =>
      if rest.length > 0 && rest.all Char.isDigit then
        some (-(Int.ofNat (digitsVal rest)))
      else none
  | l =>
      if l.all Char.isDigit then some (Int.ofNat (digitsVal l)) else none

/-- JS Number(string): trim whitespace, empty means 0, otherwise parse a
numeric literal, otherwise NaN. -/
def strToNumber (s : String) : JNum :=
  let t := trimChars s.toList
  if t.isEmpty then JNum.fin 0
  else
    match parseDecInt t with
    | some n => JNum.fin n
    | none => JNum.nan

/-- JS Number(value) coercion. -/
def toNumber : JSValue → JNum
  | JSValue.null => JNum.fin 0
  | JSValue.undef => JNum.nan
  | JSValue.bool b => JNum.fin (if b then 1 else 0)
  | JSValue.num n => JNum.fin n
  | JSValue.nan => JNum.nan
  | JSValue.str s => strToNumber s

/-- JS String(value) coercion. -/
def jsToString : JSValue → String
  | JSValue.null => "null"
  | JSValue.undef => "undefined"
  | JSValue.bool b => if b then "true" else "false"
  | JSValue.num n => toString n
  | JSValue.nan => "NaN"
  | JSValue.str s => s

/-- A request body / stored row: an ordered association of field names to
values (JS objects have unique keys; lookups take the first occurrence). -/
abbrev Payload := List (String × JSValue)

/-- A row of the spreadsheet store. -/
abbrev Row := Payload

/-- JS property access obj[key]: the first binding of the key, undefined
when the key is absent. -/
def getField : Payload → String → JSValue
  | [], _ => JSValue.undef
  | (k0, v0) :: rest, k => if k0 == k then v0 else getField rest k

/-- JS property assignment obj[key] = v (and row.set(key, v)): replace the
first binding in place, or append a new binding at the end. -/
def setField : Payload → String → JSValue → Payload
  | [], k, v => [(k, v)]
  | (k0, v0) :: rest, k, v =>
      if k0 == k then (k, v) :: rest else (k0, v0) :: setField rest k v

/-- src/app.js line 55: required fields shared by POST and PUT. -/
def REQUIRED_FIELDS_FOR_BOOK : List String := ["Class", "Book Name", "Book Price"]

/-- src/app.js line 57: fields expected to be numeric. -/
def NUMERIC_FIELDS : List String := ["SrNo", "Volume", "Book Price"]

/-- The missing-field filter used by POST (line 71) and PUT (line 216):
required fields whose value in the body is falsy, in the fixed order of
REQUIRED_FIELDS_FOR_BOOK. -/
def missingFields (body : Payload) : List String :=
  REQUIRED_FIELDS_FOR_BOOK.filter (fun f => falsy (getField body f))

/-- src/app.js lines 59-62: fallback SrNo generator. nowMs is Date.now()
and rand is Math.floor(Math.random() * 1000), so rand < 1000. Taking the
last six characters of the decimal string of nowMs and reading them back
as a number is exactly nowMs mod 10^6 (also when nowMs has fewer than six
digits, since then the whole string is taken and nowMs < 10^6). -/
def generateBackendSrNo (nowMs rand : Nat) : Nat :=
  nowMs % 1000000 + rand

/-- src/app.js lines 236-246: per-key coercion applied by the PUT handler.
Numeric fields become 0 when Number(value) is NaN or the value is null or
the empty string, and otherwise the coerced number; other fields become ""
when null or undefined and otherwise String(value). -/
def normalizeField (key : String) (value : JSValue) : JSValue :=
  if NUMERIC_FIELDS.contains key then
    match toNumber value with
    | JNum.nan => JSValue.num 0
    | JNum.fin n =>
        if value = JSValue.null ∨ value = JSValue.str "" then JSValue.num 0
        else JSValue.num n
  else
    if value = JSValue.null ∨ value = JSValue.undef then JSValue.str ""
    else JSValue.str (jsToString value)

/-- src/app.js lines 229-249: the PUT normalization loop. Each key of the
payload is set on the row after coercion, in payload order; the key
rowIndex is skipped. -/
def applyUpdate (row : Row) : Payload → Row
  | [] => row
  | (k, v) :: rest =>
      applyUpdate
        (if k == "rowIndex" then row else setField row k (normalizeField k v))
        rest

/-- Process-wide store state: either initialization failed at boot
(doc = null, src/app.js lines 33-40) or the sheet is reachable and
currently holds the given rows. -/
inductive StoreState where
  | failedInit : StoreState
  | ready : List Row → StoreState
deriving DecidableEq, Repr

/-- src/app.js line 45: the diagnostic thrown by loadSheet when the boot
initialization failed. -/
def initErrorMsg : String :=
  "API Initialization failed. Check Vercel GOOGLE_CREDENTIALS and SPREADSHEET_ID variables."

/-- src/app.js lines 43-52: loadSheet throws the captured initialization
diagnostic when doc is null, and otherwise yields the sheet rows. -/
def loadSheet : StoreState → Except String (List Row)
  | StoreState.failedInit => Except.error initErrorMsg
  | StoreState.ready rows => Except.ok rows

/-- src/app.js lines 18-40: boot. Parsing the credentials fails (malformed
configuration) leaves doc = null without terminating the process; success
yields a ready store. -/
def bootStore (credentialsOk : Bool) (sheetRows : List Row) : StoreState :=
  if credentialsOk then StoreState.ready sheetRows else StoreState.failedInit

/-- src/app.js lines 76-79: the body actually appended by POST, i.e. the
payload with a generated SrNo assigned when the supplied SrNo is falsy. -/
def postWritten (body : Payload) (nowMs rand : Nat) : Payload :=
  if falsy (getField body "SrNo") then
    setField body "SrNo" (JSValue.num (Int.ofNat (generateBackendSrNo nowMs rand)))
  else body

/-- Outcome of the POST /api/books handler: HTTP status, response message,
error detail of a 500, the srNo echoed by a 201, and the rows appended. -/
structure PostOutcome where
  status : Nat
  message : String
  error : Option String
  srNo : Option JSValue
  written : List Row
deriving DecidableEq, Repr

/-- src/app.js lines 66-88: POST /api/books. -/
def postBook (st : StoreState) (body : Payload) (nowMs rand : Nat) : PostOutcome :=
  match loadSheet st with
  | Except.error e =>
      { status := 500, message := "Error adding book", error := some e,
        srNo := none, written := [] }
  | Except.ok _rows =>
      if (missingFields body).isEmpty then
        let bookData := postWritten body nowMs rand
        { status := 201, message := "Book added successfully!", error := none,
          srNo := some (getField bookData "SrNo"), written := [bookData] }
      else
        { status := 400,
          message := "Missing fields: " ++ String.intercalate ", " (missingFields body),
          error := none, srNo := none, written := [] }

/-- The row predicate of the PUT/DELETE lookup, src/app.js lines 222 and
269: String(row.get('SrNo')) === String(srNoParam); the path parameter is
already a string. -/
def matchesKey (p : String) (row : Row) : Bool :=
  jsToString (getField row "SrNo") == p

/-- rows.find(...) on the SrNo predicate, keeping the surrounding rows:
the first matching row together with the rows before and after it. -/
def locateRow (p : String) : List Row → Option (List Row × Row × List Row)
  | [] => none
  | row :: rest =>
      if matchesKey p row then some ([], row, rest)
      else
        match locateRow p rest with
        | some (pre, r, post) => some (row :: pre, r, post)
        | none => none

/-- Outcome of the PUT /api/books/:srNo handler: status, message, error
detail, the sheet rows after the call, and the number of save() calls. -/
structure PutOutcome where
  status : Nat
  message : String
  error : Option String
  rows : List Row
  saveCalls : Nat
deriving DecidableEq, Repr

/-- src/app.js lines 210-259: PUT /api/books/:srNo. -/
def putBook (st : StoreState) (srNoParam : String) (body : Payload) : PutOutcome :=
  match loadSheet st with
  | Except.error e =>
      { status := 500, message := "Error updating book", error := some e,
        rows := [], saveCalls := 0 }
  | Except.ok rows =>
      if (missingFields body).isEmpty then
        match locateRow srNoParam rows with
        | none =>
            { status := 404,
              message := "Book with SrNo " ++ srNoParam ++ " not found.",
              error := none, rows := rows, saveCalls := 0 }
        | some (pre, row, post) =>
            { status := 200,
              message := "Book " ++ srNoParam ++ " updated successfully!",
              error := none, rows := pre ++ applyUpdate row body :: post,
              saveCalls := 1 }
      else
        { status := 400,
          message := "Missing required fields for update: " ++
            String.intercalate ", " (missingFields body),
          error := none, rows := rows, saveCalls := 0 }

/-- Outcome of the DELETE /api/books/:srNo handler. -/
structure DeleteOutcome where
  status : Nat
  message : String
  error : Option String
  rows : List Row
  deleteCalls : Nat
deriving DecidableEq, Repr

/-- src/app.js lines 263-282: DELETE /api/books/:srNo. -/
def deleteBook (st : StoreState) (srNoParam : String) : DeleteOutcome :=
  match loadSheet st with
  | Except.error e =>
      { status := 500, message := "Error deleting book", error := some e,
        rows := [], deleteCalls := 0 }
  | Except.ok rows =>
      match locateRow srNoParam rows with
      | none =>
          { status := 404,
            message := "Book with SrNo " ++ srNoParam ++ " not found.",
            error := none, rows := rows, deleteCalls := 0 }
      | some (pre, _row, post) =>
          { status := 200,
            message := "Book " ++ srNoParam ++ " deleted successfully!",
            error := none, rows := pre ++ post, deleteCalls := 1 }

/-- src/app.js lines 98-114: fields mapped into a book object by GET. -/
def bookFields : List String :=
  ["Class", "SrNo", "Book Name", "Volume", "Date", "Book Price", "Room",
   "Kapat", "other1", "other2", "Writer", "Reader"]

/-- One GET book object: rowIndex (the physical row number: data rows
start at spreadsheet row 2) plus the fixed fields read off the row. -/
def rowToBook (rowNumber : Nat) (row : Row) : Payload :=
  ("rowIndex", JSValue.num (Int.ofNat rowNumber)) ::
    bookFields.map (fun f => (f, getField row f))

/-- Does the needle occur at the start of the haystack? -/
def leadsWith : List Char → List Char → Bool
  | [], _ => true
  | _ :: _, [] => false
  | a :: as, b :: bs => a == b && leadsWith as bs

/-- JS String.includes on character lists. -/
def occursIn (needle : List Char) : List Char → Bool
  | [] => needle.isEmpty
  | c :: rest => leadsWith needle (c :: rest) || occursIn needle rest

/-- Outcome of GET /api/books: status, message and error detail of a 500,
and the filtered book list of a 200. -/
structure GetOutcome where
  status : Nat
  message : String
  error : Option String
  books : List Payload
deriving DecidableEq, Repr

/-- src/app.js lines 93-141: GET /api/books with the optional query
parameters class and search (absent query parameters are none). -/
def getBooks (st : StoreState) (classFilter searchTerm : Option String) : GetOutcome :=
  match loadSheet st with
  | Except.error e =>
      { status := 500, message := "Error fetching books", error := some e,
        books := [] }
  | Except.ok rows =>
      let books0 := rows.enum.map (fun ir => rowToBook (ir.1 + 2) ir.2)
      let books1 :=
        match classFilter with
        | none => books0
        | some c =>
            if c ≠ "" ∧ c ≠ "All" then
              books0.filter (fun b =>
                (jsToString (getField b "Class")).toLower == c.toLower)
            else books0
      let books2 :=
        match searchTerm with
        | none => books1
        | some s =>
            if s ≠ "" then
              books1.filter (fun b =>
                (b.map Prod.snd).any (fun v =>
                  occursIn s.toLower.toList ((jsToString v).toLower.toList)))
            else books1
      { status := 200, message := "", error := none, books := books2 }

/-! ### Basic lemmas on field access and update -/

theorem getField_setField_self (r : Payload) (k : String) (v : JSValue) :
    getField (setField r k v) k = v := by
  induction r with
  | nil => simp [setField, getField]
  | cons kv rest ih =>
      obtain ⟨k0, v0⟩ := kv
      by_cases h : k0 == k
      · simp [setField, getField, h]
      · simp [setField, getField, h, ih]

theorem getField_setField_ne (r : Payload) (k k' : String) (v : JSValue)
    (h : k' ≠ k) : getField (setField r k v) k' = getField r k' := by
  induction r with
  | nil =>
      have hf : (k == k') = false := beq_eq_false_iff_ne.mpr (Ne.symm h)
      simp [setField, getField, hf]
  | cons kv rest ih =>
      obtain ⟨k0, v0⟩ := kv
      by_cases h0 : k0 == k
      · have hk0 : k0 = k := by simpa using h0
        subst hk0
        have hkk : (k0 == k') = false := beq_eq_false_iff_ne.mpr (Ne.symm h)
        simp [setField, getField, hkk]
      · simp [setField, getField, h0, ih]

theorem applyUpdate_not_mem (body : Payload) :
    ∀ (row : Row) (k : String), k ∉ body.map Prod.fst →
      getField (applyUpdate row body) k = getField row k := by
  induction body with
  | nil => intro row k _; rfl
  | cons kv rest ih =>
      intro row k hk
      obtain ⟨k0, v0⟩ := kv
      simp only [List.map_cons, List.mem_cons, not_or] at hk
      obtain ⟨hk0, hkrest⟩ := hk
      simp only [applyUpdate]
      rw [ih _ k hkrest]
      by_cases h0 : k0 == "rowIndex"
      · simp [h0]
      · simp only [h0, Bool.false_eq_true, if_false]
        exact getField_setField_ne row k0 k _ hk0

theorem applyUpdate_mem (body : Payload) :
    ∀ (row : Row) (k : String) (v : JSValue),
      (body.map Prod.fst).Nodup → (k, v) ∈ body → k ≠ "rowIndex" →
      getField (applyUpdate row body) k = normalizeField k v := by
  induction body with
  | nil => intro row k v _ hmem _; simp at hmem
  | cons kv rest ih =>
      intro row k v hnd hmem hk
      obtain ⟨k0, v0⟩ := kv
      simp only [List.map_cons, List.nodup_cons] at hnd
      obtain ⟨hk0notin, hndrest⟩ := hnd
      rcases List.mem_cons.mp hmem with heq | hmemrest
      · injection heq with hkk0 hvv0
        subst hkk0; subst hvv0
        have hne : (k == "rowIndex") = false := by
          simp [hk]
        simp only [applyUpdate, hne, Bool.false_eq_true, if_false]
        rw [applyUpdate_not_mem rest _ k hk0notin]
        exact getField_setField_self row k _
      · simp only [applyUpdate]
        exact ih _ k v hndrest hmemrest hk

theorem applyUpdate_rowIndex (body : Payload) :
    ∀ (row : Row),
      getField (applyUpdate row body) "rowIndex" = getField row "rowIndex" := by
  induction body with
  | nil => intro row; rfl
  | cons kv rest ih =>
      intro row
      obtain ⟨k0, v0⟩ := kv
      simp only [applyUpdate]
      rw [ih]
      by_cases h0 : k0 == "rowIndex"
      · simp [h0]
      · have hk0 : k0 ≠ "rowIndex" := by simpa using h0
        have hf : (k0 == "rowIndex") = false := beq_eq_false_iff_ne.mpr hk0
        simp only [hf, Bool.false_eq_true, if_false]
        exact getField_setField_ne row k0 "rowIndex" _ (Ne.symm hk0)

/-! ### Lemmas on the row lookup -/

theorem locateRow_some (p : String) (rows : List Row) :
    ∀ pre row post, locateRow p rows = some (pre, row, post) →
      rows = pre ++ row :: post ∧ matchesKey p row = true ∧
        ∀ x ∈ pre, matchesKey p x = false := by
  induction rows with
  | nil => intro pre row post h; simp [locateRow] at h
  | cons r0 rest ih =>
      intro pre row post h
      by_cases h0 : matchesKey p r0
      · simp only [locateRow, h0, if_true, Option.some.injEq, Prod.mk.injEq] at h
        obtain ⟨h1, h2, h3⟩ := h
        subst h1; subst h2; subst h3
        exact ⟨rfl, h0, by simp⟩
      · simp only [locateRow, h0, Bool.false_eq_true, if_false] at h
        rcases hrec : locateRow p rest with _ | ⟨pre', row', post'⟩
        · rw [hrec] at h; simp at h
        · rw [hrec] at h
          simp only [Option.some.injEq, Prod.mk.injEq] at h
          obtain ⟨h1, h2, h3⟩ := h
          subst h2; subst h3
          obtain ⟨hA, hB, hC⟩ := ih pre' row' post' hrec
          subst h1
          refine ⟨by simp [hA], hB, ?_⟩
          intro x hx
          rcases List.mem_cons.mp hx with hx0 | hx'
          · subst hx0; simpa using h0
          · exact hC x hx'

theorem locateRow_none (p : String) (rows : List Row) :
    locateRow p rows = none ↔ ∀ x ∈ rows, matchesKey p x = false := by
  induction rows with
  | nil => simp [locateRow]
  | cons r0 rest ih =>
      by_cases h0 : matchesKey p r0
      · simp [locateRow, h0]
      · rcases hrec : locateRow p rest with _ | ⟨pre', row', post'⟩
        · have hall : ∀ x ∈ rest, matchesKey p x = false := ih.mp hrec
          simp only [locateRow, h0, Bool.false_eq_true, if_false, hrec]
          simp only [List.forall_mem_cons]
          constructor
          · intro _
            exact ⟨by simpa using h0, hall⟩
          · intro _
            trivial
        · simp only [locateRow, h0, Bool.false_eq_true, if_false, hrec]
          simp only [List.forall_mem_cons]
          constructor
          · intro h; simp at h
          · rintro ⟨-, hall⟩
            have hn : locateRow p rest = none := ih.mpr hall
            rw [hrec] at hn
            simp at hn

/-! ### Lemmas on the per-field coercion -/

theorem normalizeField_num_zero (k : String) (v : JSValue)
    (hk : NUMERIC_FIELDS.contains k = true)
    (hv : v = JSValue.null ∨ v = JSValue.undef ∨ v = JSValue.str "" ∨
      toNumber v = JNum.nan) :
    normalizeField k v = JSValue.num 0 := by
  have hk' : k ∈ NUMERIC_FIELDS := by simpa using hk
  rcases hv with h | h | h | h
  · subst h; simp [normalizeField, hk', toNumber]
  · subst h; simp [normalizeField, hk', toNumber]
  · subst h
    have h0 : toNumber (JSValue.str "") = JNum.fin 0 := by decide
    simp [normalizeField, hk', h0]
  · simp [normalizeField, hk', h]

theorem normalizeField_num_val (k : String) (v : JSValue) (n : Int)
    (hk : NUMERIC_FIELDS.contains k = true) (hfin : toNumber v = JNum.fin n)
    (hnull : v ≠ JSValue.null) (hemp : v ≠ JSValue.str "") :
    normalizeField k v = JSValue.num n := by
  have hk' : k ∈ NUMERIC_FIELDS := by simpa using hk
  simp [normalizeField, hk', hfin, hnull, hemp]

theorem normalizeField_str_empty (k : String) (v : JSValue)
    (hk : NUMERIC_FIELDS.contains k = false)
    (hv : v = JSValue.null ∨ v = JSValue.undef) :
    normalizeField k v = JSValue.str "" := by
  have hk' : k ∉ NUMERIC_FIELDS := by simpa using hk
  rcases hv with h | h <;> subst h <;> simp [normalizeField, hk']

theorem normalizeField_str_val (k : String) (v : JSValue)
    (hk : NUMERIC_FIELDS.contains k = false)
    (hnull : v ≠ JSValue.null) (hundef : v ≠ JSValue.undef) :
    normalizeField k v = JSValue.str (jsToString v) := by
  have hk' : k ∉ NUMERIC_FIELDS := by simpa using hk
  simp [normalizeField, hk', hnull, hundef]

/-! ### Concrete sample data used by witnesses and counterexamples -/

/-- A stored row with SrNo "7", used to exercise successful updates. -/
def sampleRow : Row :=
  [("SrNo", JSValue.str "7"), ("Class", JSValue.str "I"),
   ("Book Name", JSValue.str "Old"), ("Book Price", JSValue.str "50"),
   ("Room", JSValue.str "A")]

/-- A valid update payload (all required fields truthy, distinct keys)
containing the non-numeric Volume value "abc". -/
def sampleBody : Payload :=
  [("Class", JSValue.str "II"), ("Book Name", JSValue.str "New"),
   ("Book Price", JSValue.str "80"), ("Volume", JSValue.str "abc")]

/-- A minimal valid create payload without SrNo. -/
def sampleCreateBody : Payload :=
  [("Class", JSValue.str "I"), ("Book Name", JSValue.str "B"),
   ("Book Price", JSValue.str "1")]

/-! ### Claims -/

/-- C4: for every field key and value processed by the update
normalization, a numeric field (SrNo, Volume, Book Price) yields 0 when
the value is null, undefined, the empty string, or fails numeric parsing,
and otherwise the parsed number; any other field yields the empty string
when the value is null or undefined, and otherwise the string
representation of the value. -/
theorem claim_c4 (key : String) (value : JSValue) :
    (NUMERIC_FIELDS.contains key = true →
      ((value = JSValue.null ∨ value = JSValue.undef ∨ value = JSValue.str "" ∨
          toNumber value = JNum.nan) → normalizeField key value = JSValue.num 0) ∧
      (∀ n : Int, toNumber value = JNum.fin n → value ≠ JSValue.null →
          value ≠ JSValue.undef → value ≠ JSValue.str "" →
          normalizeField key value = JSValue.num n)) ∧
    (NUMERIC_FIELDS.contains key = false →
      ((value = JSValue.null ∨ value = JSValue.undef) →
          normalizeField key value = JSValue.str "") ∧
      (value ≠ JSValue.null → value ≠ JSValue.undef →
          normalizeField key value = JSValue.str (jsToString value))) := by
  constructor
  · intro hk
    refine ⟨fun hv => normalizeField_num_zero key value hk hv, ?_⟩
    intro n hfin hnull _ hemp
    exact normalizeField_num_val key value n hk hfin hnull hemp
  · intro hk
    refine ⟨fun hv => normalizeField_str_empty key value hk hv, ?_⟩
    intro hnull hundef
    exact normalizeField_str_val key value hk hnull hundef

/-- C4 witness: the theorem applied at the numeric field Volume with the
non-numeric string "abc", and at the string field Room with the number 5
(which becomes the string "5"). -/
theorem claim_c4_witness :
    normalizeField "Volume" (JSValue.str "abc") = JSValue.num 0 ∧
    normalizeField "Room" (JSValue.num 5) = JSValue.str (jsToString (JSValue.num 5)) := by
  constructor
  · exact ((claim_c4 "Volume" (JSValue.str "abc")).1 (by decide)).1
      (Or.inr (Or.inr (Or.inr (by decide))))
  · exact ((claim_c4 "Room" (JSValue.num 5)).2 (by decide)).2 (by decide) (by decide)

/-- C8: malformed store configuration at boot leaves the process running
with a permanently failed store handle; every request that needs the
store then fails with 500 carrying the captured initialization
diagnostic, with no store write, on every call (the failure is
re-signaled, never retried: the state stays failedInit). -/
theorem claim_c8 (rows : List Row) (body : Payload) (p : String)
    (cf sTerm : Option String) (t r : Nat) :
    bootStore false rows = StoreState.failedInit ∧
    (postBook StoreState.failedInit body t r).status = 500 ∧
    (postBook StoreState.failedInit body t r).error = some initErrorMsg ∧
    (postBook StoreState.failedInit body t r).written = [] ∧
    (getBooks StoreState.failedInit cf sTerm).status = 500 ∧
    (getBooks StoreState.failedInit cf sTerm).error = some initErrorMsg ∧
    (putBook StoreState.failedInit p body).status = 500 ∧
    (putBook StoreState.failedInit p body).error = some initErrorMsg ∧
    (putBook StoreState.failedInit p body).saveCalls = 0 ∧
    (deleteBook StoreState.failedInit p).status = 500 ∧
    (deleteBook StoreState.failedInit p).error = some initErrorMsg ∧
    (deleteBook StoreState.failedInit p).deleteCalls = 0 :=
  ⟨rfl, rfl, rfl, rfl, rfl, rfl, rfl, rfl, rfl, rfl, rfl, rfl⟩

/-- C10: while store initialization has failed, create and update answer
500 with the initialization diagnostic even when the body is missing
required fields: the sheet load precedes validation, so the 400 branch is
not reached in that state. -/
theorem claim_c10 (body : Payload) (p : String) (t r : Nat)
    (hmiss : missingFields body ≠ []) :
    (postBook StoreState.failedInit body t r).status = 500 ∧
    (postBook StoreState.failedInit body t r).status ≠ 400 ∧
    (postBook StoreState.failedInit body t r).error = some initErrorMsg ∧
    (putBook StoreState.failedInit p body).status = 500 ∧
    (putBook StoreState.failedInit p body).status ≠ 400 ∧
    (putBook StoreState.failedInit p body).error = some initErrorMsg :=
  ⟨rfl, by simp [postBook, loadSheet], rfl, rfl, by simp [putBook, loadSheet], rfl⟩

/-- C10 witness: the theorem applied to the empty body (all three
required fields missing) against the failed store. -/
theorem claim_c10_witness :
    (postBook StoreState.failedInit [] 0 0).status = 500 ∧
    (putBook StoreState.failedInit "1" []).status = 500 :=
  ⟨(claim_c10 [] "1" 0 0 (by decide)).1,
   (claim_c10 [] "1" 0 0 (by decide)).2.2.2.1⟩

/-- The missing-field list is nonempty exactly when some required field
is falsy in the body. -/
theorem missingFields_ne_nil_iff (body : Payload) :
    missingFields body ≠ [] ↔
      ∃ f ∈ REQUIRED_FIELDS_FOR_BOOK, falsy (getField body f) = true := by
  unfold missingFields
  constructor
  · intro h
    rcases List.exists_mem_of_ne_nil _ h with ⟨f, hf⟩
    obtain ⟨hfm, hff⟩ := List.mem_filter.mp hf
    exact ⟨f, hfm, hff⟩
  · rintro ⟨f, hfm, hff⟩ hnil
    have hmem : f ∈ ([] : List String) := hnil ▸ List.mem_filter.mpr ⟨hfm, hff⟩
    simp at hmem

/-- C3: with a reachable store, create and update answer 400 exactly when
some required field (Class, Book Name, Book Price) is falsy, and the 400
message lists exactly the missing field names, in the fixed required
order. -/
theorem claim_c3 (rows : List Row) (p : String) (body : Payload) (t r : Nat) :
    ((postBook (StoreState.ready rows) body t r).status = 400 ↔
      missingFields body ≠ []) ∧
    ((putBook (StoreState.ready rows) p body).status = 400 ↔
      missingFields body ≠ []) ∧
    (missingFields body ≠ [] ↔
      ∃ f ∈ REQUIRED_FIELDS_FOR_BOOK, falsy (getField body f) = true) ∧
    missingFields body =
      REQUIRED_FIELDS_FOR_BOOK.filter (fun f => falsy (getField body f)) ∧
    (missingFields body ≠ [] →
      (postBook (StoreState.ready rows) body t r).message =
        "Missing fields: " ++ String.intercalate ", " (missingFields body) ∧
      (putBook (StoreState.ready rows) p body).message =
        "Missing required fields for update: " ++
          String.intercalate ", " (missingFields body)) := by
  refine ⟨?_, ?_, missingFields_ne_nil_iff body, rfl, ?_⟩
  · rcases hml : missingFields body with _ | ⟨f0, fs⟩
    · simp [postBook, loadSheet, hml]
    · simp [postBook, loadSheet, hml]
  · rcases hml : missingFields body with _ | ⟨f0, fs⟩
    · rcases hloc : locateRow p rows with _ | ⟨pre, row, post⟩ <;>
        simp [putBook, loadSheet, hml, hloc]
    · simp [putBook, loadSheet, hml]
  · intro hne
    rcases hml : missingFields body with _ | ⟨f0, fs⟩
    · exact absurd hml hne
    · constructor <;> simp [postBook, putBook, loadSheet, hml]

/-- C3 witness: the theorem applied to the empty body, which is missing
all three required fields, against a reachable store. -/
theorem claim_c3_witness :
    (postBook (StoreState.ready []) [] 0 0).status = 400 ∧
    (postBook (StoreState.ready []) [] 0 0).message =
      "Missing fields: " ++ String.intercalate ", " (missingFields []) := by
  have h := claim_c3 [] "1" ([] : Payload) 0 0
  exact ⟨h.1.mpr (by decide), (h.2.2.2.2 (by decide)).1⟩

/-- C5: a successful update issues exactly one save, replaces only the
located row, sets on it exactly the normalized values of the payload keys
(rowIndex aside), and leaves every field absent from the payload
unchanged. -/
theorem claim_c5 (rows : List Row) (p : String) (body : Payload)
    (hnd : (body.map Prod.fst).Nodup)
    (h : (putBook (StoreState.ready rows) p body).status = 200) :
    (putBook (StoreState.ready rows) p body).saveCalls = 1 ∧
    ∃ pre row post,
      locateRow p rows = some (pre, row, post) ∧
      (putBook (StoreState.ready rows) p body).rows =
        pre ++ applyUpdate row body :: post ∧
      (∀ k, k ∉ body.map Prod.fst →
        getField (applyUpdate row body) k = getField row k) ∧
      (∀ k v, (k, v) ∈ body → k ≠ "rowIndex" →
        getField (applyUpdate row body) k = normalizeField k v) := by
  rcases hml : missingFields body with _ | ⟨f0, fs⟩
  · rcases hloc : locateRow p rows with _ | ⟨pre, row, post⟩
    · exfalso; simp [putBook, loadSheet, hml, hloc] at h
    · refine ⟨?_, pre, row, post, rfl, ?_, ?_, ?_⟩
      · simp [putBook, loadSheet, hml, hloc]
      · simp [putBook, loadSheet, hml, hloc]
      · intro k hk
        exact applyUpdate_not_mem body row k hk
      · intro k v hmem hkne
        exact applyUpdate_mem body row k v hnd hmem hkne
  · exfalso; simp [putBook, loadSheet, hml] at h

/-- C5 witness: a successful concrete update issues exactly one save. -/
theorem claim_c5_witness :
    (putBook (StoreState.ready [sampleRow]) "7" sampleBody).saveCalls = 1 :=
  (claim_c5 [sampleRow] "7" sampleBody (by decide) (by decide)).1

/-- C6: update and delete target the first row in store order whose SrNo,
as a string, equals the path parameter; when no row matches, both answer
404 and leave the rows unchanged with no save or delete call. -/
theorem claim_c6 (rows : List Row) (p : String) (body : Payload)
    (hval : missingFields body = []) :
    (∀ pre row post, locateRow p rows = some (pre, row, post) →
      rows = pre ++ row :: post ∧
      jsToString (getField row "SrNo") = p ∧
      (∀ x ∈ pre, jsToString (getField x "SrNo") ≠ p) ∧
      (putBook (StoreState.ready rows) p body).rows =
        pre ++ applyUpdate row body :: post ∧
      (deleteBook (StoreState.ready rows) p).rows = pre ++ post) ∧
    (locateRow p rows = none →
      ((∀ x ∈ rows, jsToString (getField x "SrNo") ≠ p) ∧
       (putBook (StoreState.ready rows) p body).status = 404 ∧
       (putBook (StoreState.ready rows) p body).rows = rows ∧
       (putBook (StoreState.ready rows) p body).saveCalls = 0 ∧
       (deleteBook (StoreState.ready rows) p).status = 404 ∧
       (deleteBook (StoreState.ready rows) p).rows = rows ∧
       (deleteBook (StoreState.ready rows) p).deleteCalls = 0)) := by
  constructor
  · intro pre row post hloc
    obtain ⟨hA, hB, hC⟩ := locateRow_some p rows pre row post hloc
    refine ⟨hA, by simpa [matchesKey] using hB, ?_, ?_, ?_⟩
    · intro x hx
      have hx' := hC x hx
      simpa [matchesKey] using hx'
    · simp [putBook, loadSheet, hval, hloc]
    · simp [deleteBook, loadSheet, hloc]
  · intro hloc
    have hall := (locateRow_none p rows).mp hloc
    refine ⟨?_, ?_, ?_, ?_, ?_, ?_, ?_⟩
    · intro x hx
      have hx' := hall x hx
      simpa [matchesKey] using hx'
    all_goals simp [putBook, deleteBook, loadSheet, hval, hloc]

/-- C6 witness: on an empty store no row matches, and both update (with a
valid body) and delete answer 404. -/
theorem claim_c6_witness :
    (putBook (StoreState.ready []) "9" sampleBody).status = 404 ∧
    (deleteBook (StoreState.ready []) "9").status = 404 := by
  have h := (claim_c6 [] "9" sampleBody (by decide)).2 rfl
  exact ⟨h.2.1, h.2.2.2.2.1⟩

/-- A create payload whose Volume is the non-numeric string "abc" and
whose Book Price is the string "120" (all required fields truthy). -/
def c1Body : Payload :=
  [("Class", JSValue.str "I"), ("Book Name", JSValue.str "X"),
   ("Book Price", JSValue.str "120"), ("Volume", JSValue.str "abc")]

/-- C1 counterexample: a successful create stores the non-numeric Volume
"abc" as that string, not as the number 0, and stores Book Price as the
string "120": the create path performs no normalization, so the invariant
does not hold uniformly on both paths. -/
theorem claim_c1_cex :
    (postBook (StoreState.ready []) c1Body 1760000000123 7).status = 201 ∧
    getField ((postBook (StoreState.ready []) c1Body 1760000000123 7).written.headD [])
      "Volume" = JSValue.str "abc" ∧
    getField ((postBook (StoreState.ready []) c1Body 1760000000123 7).written.headD [])
      "Volume" ≠ JSValue.num 0 ∧
    getField ((postBook (StoreState.ready []) c1Body 1760000000123 7).written.headD [])
      "Book Price" = JSValue.str "120" := by decide

/-- C1 amended: the normalization invariant holds on the update path
only: every numeric payload field with a null/empty/non-numeric value is
written as the number 0 and every other payload field with a null or
undefined value is written as the empty string; the create path writes
the payload values unchanged, apart from replacing a falsy SrNo by the
generated fallback. -/
theorem claim_c1_amended (row : Row) (body : Payload)
    (hnd : (body.map Prod.fst).Nodup) (k : String) (v : JSValue)
    (hmem : (k, v) ∈ body) (hk : k ≠ "rowIndex")
    (st : StoreState) (body2 : Payload) (t r : Nat) :
    (NUMERIC_FIELDS.contains k = true →
      (v = JSValue.null ∨ v = JSValue.undef ∨ v = JSValue.str "" ∨
        toNumber v = JNum.nan) →
      getField (applyUpdate row body) k = JSValue.num 0) ∧
    (NUMERIC_FIELDS.contains k = false →
      (v = JSValue.null ∨ v = JSValue.undef) →
      getField (applyUpdate row body) k = JSValue.str "") ∧
    ((postBook st body2 t r).status = 201 →
      (postBook st body2 t r).written = [postWritten body2 t r] ∧
      ∀ k2, k2 ≠ "SrNo" → getField (postWritten body2 t r) k2 = getField body2 k2) := by
  refine ⟨?_, ?_, ?_⟩
  · intro hkn hv
    rw [applyUpdate_mem body row k v hnd hmem hk]
    exact normalizeField_num_zero k v hkn hv
  · intro hkn hv
    rw [applyUpdate_mem body row k v hnd hmem hk]
    exact normalizeField_str_empty k v hkn hv
  · intro h201
    constructor
    · cases st with
      | failedInit => simp [postBook, loadSheet] at h201
      | ready rows =>
          rcases hml : missingFields body2 with _ | ⟨f0, fs⟩
          · simp [postBook, loadSheet, hml]
          · simp [postBook, loadSheet, hml] at h201
    · intro k2 hk2
      unfold postWritten
      by_cases hf : falsy (getField body2 "SrNo")
      · simp only [hf, if_true]
        exact getField_setField_ne body2 "SrNo" k2 _ hk2
      · simp [hf]

/-- C1 amended witness: updating sampleRow with sampleBody writes Volume
as the number 0. -/
theorem claim_c1_amended_witness :
    getField (applyUpdate sampleRow sampleBody) "Volume" = JSValue.num 0 :=
  (claim_c1_amended sampleRow sampleBody (by decide) "Volume" (JSValue.str "abc")
    (by decide) (by decide) (StoreState.ready []) sampleCreateBody 0 0).1
    (by decide) (Or.inr (Or.inr (Or.inr (by decide))))

/-- The create payload of the C2 scenario. -/
def c2Body1 : Payload :=
  [("Class", JSValue.str "I"), ("Book Name", JSValue.str "Balbharati"),
   ("Book Price", JSValue.str "120")]

/-- The update payload of the C2 scenario: Book Price is the empty string
and Volume is non-numeric. -/
def c2Body2 : Payload :=
  [("Class", JSValue.str "I"), ("Book Name", JSValue.str "Balbharati"),
   ("Book Price", JSValue.str ""), ("Volume", JSValue.str "abc")]

/-- The create call of the C2 scenario (Date.now() = 1760000000123 and a
random offset of 7, so the assigned SrNo is 130). -/
def c2Post : PostOutcome := postBook (StoreState.ready []) c2Body1 1760000000123 7

/-- The subsequent update call of the C2 scenario against the stored
record, addressed by the assigned SrNo. -/
def c2Put : PutOutcome := putBook (StoreState.ready c2Post.written) "130" c2Body2

/-- C2 counterexample: in the claimed scenario the create stores Book
Price as the string "120" (not the number 120), and the subsequent update
answers 400 (Book Price, being empty, fails required-field validation),
not 200. -/
theorem claim_c2_cex :
    c2Post.status = 201 ∧
    c2Post.srNo = some (JSValue.num 130) ∧
    getField (c2Post.written.headD []) "Book Price" = JSValue.str "120" ∧
    getField (c2Post.written.headD []) "Book Price" ≠ JSValue.num 120 ∧
    c2Put.status = 400 ∧
    c2Put.status ≠ 200 := by decide

/-- C2 amended: the create returns 201 with an assigned SrNo and stores
Book Price as the raw string "120"; the subsequent update with an empty
Book Price is rejected with 400 listing Book Price, performs no save, and
leaves the stored record unchanged. -/
theorem claim_c2_amended :
    c2Post.status = 201 ∧
    c2Post.srNo = some (JSValue.num 130) ∧
    getField (c2Post.written.headD []) "Book Price" = JSValue.str "120" ∧
    c2Put.status = 400 ∧
    c2Put.message = "Missing required fields for update: Book Price" ∧
    c2Put.rows = c2Post.written ∧
    c2Put.saveCalls = 0 := by decide

/-- A create payload that carries a rowIndex key alongside a truthy
SrNo. -/
def c7Body : Payload :=
  [("Class", JSValue.str "I"), ("Book Name", JSValue.str "B"),
   ("Book Price", JSValue.str "1"), ("SrNo", JSValue.num 5),
   ("rowIndex", JSValue.num 9)]

/-- C7 counterexample: a successful create forwards the payload's
rowIndex key to the store append unchanged, so rowIndex is not stripped
on the create path. -/
theorem claim_c7_cex :
    (postBook (StoreState.ready []) c7Body 0 0).status = 201 ∧
    (postBook (StoreState.ready []) c7Body 0 0).written = [c7Body] ∧
    getField ((postBook (StoreState.ready []) c7Body 0 0).written.headD [])
      "rowIndex" = JSValue.num 9 := by decide

/-- C7 amended: the update path never writes the payload's rowIndex key
(the located row keeps its own rowIndex field), while the create path
passes the payload through, rowIndex included. -/
theorem claim_c7_amended (row : Row) (body : Payload) (st : StoreState) (t r : Nat) :
    getField (applyUpdate row body) "rowIndex" = getField row "rowIndex" ∧
    ((postBook st body t r).status = 201 →
      getField ((postBook st body t r).written.headD []) "rowIndex" =
        getField body "rowIndex") := by
  refine ⟨applyUpdate_rowIndex body row, ?_⟩
  intro h201
  cases st with
  | failedInit => simp [postBook, loadSheet] at h201
  | ready rows =>
      rcases hml : missingFields body with _ | ⟨f0, fs⟩
      · simp only [postBook, loadSheet, hml, List.isEmpty_nil, if_true]
        unfold postWritten
        by_cases hf : falsy (getField body "SrNo")
        · simp only [hf, if_true, List.headD_cons]
          exact getField_setField_ne body "SrNo" "rowIndex" _ (by decide)
        · simp [hf]
      · simp [postBook, loadSheet, hml] at h201

/-- C7 amended witness: a successful create of sampleCreateBody passes
the (absent) rowIndex through unchanged. -/
theorem claim_c7_amended_witness :
    getField ((postBook (StoreState.ready []) sampleCreateBody 0 0).written.headD [])
      "rowIndex" = getField sampleCreateBody "rowIndex" :=
  (claim_c7_amended sampleRow sampleCreateBody (StoreState.ready []) 0 0).2 (by decide)

/-- C9 counterexample: at a timestamp whose low six decimal digits are
zero and with a zero random offset, the fallback value is 0, which is not
positive; the create still succeeds, stores SrNo 0 and returns srNo 0. -/
theorem claim_c9_cex :
    generateBackendSrNo 1760000000000 0 = 0 ∧
    ¬ 0 < generateBackendSrNo 1760000000000 0 ∧
    (postBook (StoreState.ready []) sampleCreateBody 1760000000000 0).status = 201 ∧
    (postBook (StoreState.ready []) sampleCreateBody 1760000000000 0).srNo =
      some (JSValue.num 0) := by decide

/-- C9 amended: for a create whose payload has a falsy SrNo, the fallback
equals the low six decimal digits of the timestamp plus the random offset
in [0, 1000): a nonnegative integer below 1001000 (zero when both parts
are zero, so positivity is not guaranteed); it is stored on the new
record and returned as srNo. -/
theorem claim_c9_amended (rows : List Row) (body : Payload) (t r : Nat)
    (hr : r < 1000) (hsr : falsy (getField body "SrNo") = true)
    (h201 : (postBook (StoreState.ready rows) body t r).status = 201) :
    generateBackendSrNo t r = t % 1000000 + r ∧
    generateBackendSrNo t r < 1001000 ∧
    (postBook (StoreState.ready rows) body t r).written =
      [setField body "SrNo" (JSValue.num (Int.ofNat (generateBackendSrNo t r)))] ∧
    (postBook (StoreState.ready rows) body t r).srNo =
      some (JSValue.num (Int.ofNat (generateBackendSrNo t r))) := by
  have hb : generateBackendSrNo t r < 1001000 := by
    have h1 : t % 1000000 < 1000000 := Nat.mod_lt t (by norm_num)
    unfold generateBackendSrNo
    omega
  refine ⟨rfl, hb, ?_, ?_⟩
  · rcases hml : missingFields body with _ | ⟨f0, fs⟩
    · simp [postBook, loadSheet, hml, postWritten, hsr]
    · simp [postBook, loadSheet, hml] at h201
  · rcases hml : missingFields body with _ | ⟨f0, fs⟩
    · simp [postBook, loadSheet, hml, postWritten, hsr, getField_setField_self]
    · simp [postBook, loadSheet, hml] at h201

/-- C9 amended witness: the concrete create at timestamp 1760000000123
with offset 7 stores and returns the fallback SrNo 130. -/
theorem claim_c9_amended_witness :
    (postBook (StoreState.ready []) sampleCreateBody 1760000000123 7).srNo =
      some (JSValue.num (Int.ofNat (generateBackendSrNo 1760000000123 7))) :=
  (claim_c9_amended [] sampleCreateBody 1760000000123 7 (by decide) (by decide)
    (by decide)).2.2.2

end LibraryBackend
